import Mathlib

/-!
Verification of the n8n workflow proxy (a Cloudflare Worker forwarding
inbound HTTP requests to `webhook` / `webhook-test` backend endpoints).

The development shallowly embeds the worker variants found in the
repository:

* the four-mode TypeScript worker (`WEBHOOK_STRATEGIES`,
  `executeWebhookStrategy`, `parseRequestUrl`, `handleRequest`,
  `makeRequest`, `createNotCachedResponse`, and the exported `fetch`
  handler, embedded here as `workerFetch`);
* the query-flag JavaScript worker with content-inspecting retry
  (`handleTestParamRequest`, `handleStandardRequest`,
  `shouldTryWebhookTest`, embedded `fetch` as `fetchV2`);
* the minimal JavaScript worker (`src/index.js`, embedded as
  `fetchSimple`).

The network is modelled as an oracle `Net : OutboundCall → FetchResult`
mapping each outbound request to either a response or a transport-level
throw.  Each embedded handler returns, besides its result, the ordered
trace of outbound calls it performed, so that call-counting properties
can be stated.  A thrown JavaScript error is modelled as `Except.error`.

Strings are handled with list-based helpers (`splitOnChar`, `lowerStr`,
`dropLeadingWs`) so that every definition reduces by kernel computation.
-/

namespace N8nProxy

/-- An HTTP response: status code, body text, and header list.
Only headers the code explicitly sets are modelled. -/
structure Response where
  status : Nat
  body : String
  headers : List (String × String)
deriving DecidableEq, Repr

/-- An inbound request descriptor: method, `url.pathname`, `url.search`
(including the leading question mark when non-empty), body and headers. -/
structure Request where
  method : String
  pathname : String
  search : String
  body : String
  headers : List (String × String)
deriving DecidableEq, Repr

/-- An outbound forward call as built by `makeRequest`: backend path,
the query string carried over from the inbound URL, and the method,
body and headers copied onto the outbound request. -/
structure OutboundCall where
  path : String
  search : String
  method : String
  body : String
  headers : List (String × String)
deriving DecidableEq, Repr

/-- Outcome of one `fetch` to the backend: a response, or a
transport-level throw carrying an error message. -/
inductive FetchResult where
  | ok (r : Response)
  | err (e : String)
deriving DecidableEq, Repr

/-- The network oracle: what the global `fetch` returns for a given
outbound call. -/
def Net : Type := OutboundCall → FetchResult

/-- An error thrown by the worker code: `RequestError` (non-200 upstream
status, carrying the status and the original response), or a propagated
transport-level failure. -/
inductive WorkerError where
  | requestError (status : Nat) (response : Response)
  | transportError (e : String)
deriving DecidableEq, Repr

deriving instance DecidableEq for Except

/-! ### String helpers (kernel-computable stand-ins for JS string ops) -/

/-- Split a character list on a separator character; mirrors
`String.prototype.split` with a single-character separator. -/
def splitOnChar (sep : Char) : List Char → List (List Char)
  | [] => [[]]
  | c :: cs =>
    let rest := splitOnChar sep cs
    if c == sep then [] :: rest
    else
      match rest with
      | [] => [[c]]
      | r :: rs => (c :: r) :: rs

/-- `url.pathname.split(sep).filter(Boolean)` for a one-character
separator: the non-empty segments of a string. -/
def splitSegments (sep : Char) (s : String) : List String :=
  ((splitOnChar sep s.toList).map (fun l => String.mk l)).filter (fun t => t != "")

/-- Lower-case a string character by character (ASCII). -/
def lowerStr (s : String) : String :=
  String.mk (s.toList.map Char.toLower)

/-- ASCII whitespace test used when modelling `String.prototype.trim`. -/
def isJsWs (c : Char) : Bool :=
  c == ' ' || c == '\t' || c == '\n' || c == '\r'

/-- Drop leading whitespace characters. -/
def dropLeadingWs : List Char → List Char
  | [] => []
  | c :: cs => if isJsWs c then dropLeadingWs cs else c :: cs

/-- The opening brace character. -/
def lbrace : Char := Char.ofNat 123

/-- The closing brace character. -/
def rbrace : Char := Char.ofNat 125

/-- `responseText.trim().startsWith(openingBrace)`: after dropping
leading whitespace, the first character is an opening brace.  (Trailing
trim cannot affect the first character.) -/
def trimStartsWithBrace (s : String) : Bool :=
  match dropLeadingWs s.toList with
  | [] => false
  | c :: _ => c == lbrace

/-- The text after the first scheme separator `://`, when present. -/
def afterSchemeSep : List Char → Option (List Char)
  | [] => none
  | ':' :: '/' :: '/' :: rest => some rest
  | _ :: rest => afterSchemeSep rest

/-- The host part of a base URL string, as `new URL(baseUrl).host`:
the text after the scheme separator up to the first slash, question
mark or hash — including a port when one is present.  (Lower-casing of
the hostname and default-port stripping are not modelled; no claim
depends on the host value.) -/
def urlHost (baseUrl : String) : String :=
  let afterScheme := (afterSchemeSep baseUrl.toList).getD baseUrl.toList
  String.mk (afterScheme.takeWhile (fun c => c != '/' && c != '?' && c != '#'))

/-! ### Headers (case-insensitive get and set, as the Fetch API) -/

/-- `Headers.prototype.get`: case-insensitive lookup of the first entry
with the given name. -/
def headersGet (hs : List (String × String)) (name : String) : Option String :=
  (hs.find? (fun p => lowerStr p.1 == lowerStr name)).map (fun p => p.2)

/-- `Headers.prototype.set`: remove every entry matching the name
case-insensitively and add the new entry. -/
def headersSet (hs : List (String × String)) (name value : String) :
    List (String × String) :=
  hs.filter (fun p => !(lowerStr p.1 == lowerStr name)) ++ [(name, value)]

/-! ### The four-mode TypeScript worker (main variant) -/

/-- The `WEBHOOK_TYPES` table: the test hook path segment. -/
def WEBHOOK_TYPES_TEST : String := "webhook-test"

/-- The `WEBHOOK_TYPES` table: the production hook path segment. -/
def WEBHOOK_TYPES_PRODUCTION : String := "webhook"

/-- The JavaScript value read from a strategy field: a boolean, `null`,
or `undefined` — the last when the property lookup landed on a
prototype-chain value that has no such field. -/
inductive JsVal where
  | bool (b : Bool)
  | null
  | undefined
deriving DecidableEq, Repr

/-- JS truthiness of such a value (`null` and `undefined` are falsy). -/
def JsVal.truthy : JsVal → Bool
  | .bool b => b
  | _ => false

/-- A webhook strategy as the dispatch reads it: the `isTestHook` value
of the primary attempt (truthy = test hook) and the fallback value,
which is a boolean or `null` on the four own entries and `undefined`
when the lookup hit an inherited prototype property. -/
structure WebhookStrategy where
  primary : JsVal
  fallback : JsVal
deriving DecidableEq, Repr

/-- The property names a plain object literal inherits from
`Object.prototype`, all bound to truthy values (functions, or the
prototype object itself for `__proto__`). -/
def objectPrototypeKeys : List String :=
  ["constructor", "hasOwnProperty", "isPrototypeOf", "propertyIsEnumerable",
    "toLocaleString", "toString", "valueOf", "__defineGetter__",
    "__defineSetter__", "__lookupGetter__", "__lookupSetter__", "__proto__"]

/-- The `WEBHOOK_STRATEGIES[option]` property read: the four own keys
`tp` (test then production), `pt` (production then test), `t` (test
only), `p` (production only) give their strategy records; a key naming
an inherited `Object.prototype` member gives a truthy non-strategy
value whose `primary` and `fallback` fields read as `undefined`,
modelled as a pseudo-strategy with both fields undefined; any other
key reads as `undefined` (`none`). -/
def WEBHOOK_STRATEGIES (option : String) : Option WebhookStrategy :=
  if option = "tp" then some { primary := .bool true, fallback := .bool false }
  else if option = "pt" then some { primary := .bool false, fallback := .bool true }
  else if option = "t" then some { primary := .bool true, fallback := .null }
  else if option = "p" then some { primary := .bool false, fallback := .null }
  else if option ∈ objectPrototypeKeys then
    some { primary := .undefined, fallback := .undefined }
  else none

/-- `WEBHOOK_STRATEGIES[option] || WEBHOOK_STRATEGIES[PROD_ONLY]`: the
lookup result when it is truthy — which every found value is, the
inherited ones included — and the production-only record otherwise. -/
def strategyFor (option : String) : WebhookStrategy :=
  (WEBHOOK_STRATEGIES option).getD { primary := .bool false, fallback := .null }

/-- Result of `parseRequestUrl`. -/
structure ParsedUrl where
  workflowId : String
  option : String
  searchParams : String
deriving DecidableEq, Repr

/-- `parseRequestUrl`: split the pathname into non-empty segments; the
first is the mode token (defaulting to the production-only token when
absent), the second is the workflow id (defaulting to empty). -/
def parseRequestUrl (request : Request) : ParsedUrl :=
  let parts := splitSegments '/' request.pathname
  let option := (parts[0]?).getD ""
  { workflowId := (parts[1]?).getD ""
    option := if option = "" then "p" else option
    searchParams := request.search }

/-- `validateEnvironment`: the base URL environment variable is truthy
(absence is modelled as the empty string, which is also falsy in JS). -/
def validateEnvironment (env : String) : Bool := env != ""

/-- `prepareHeaders`: clone the inbound headers and overwrite the host
header with the backend host. -/
def prepareHeaders (originalHeaders : List (String × String)) (baseUrl : String) :
    List (String × String) :=
  headersSet originalHeaders "host" (urlHost baseUrl)

/-- The outbound request value that `makeRequest` hands to `fetch`:
URL = path plus the inbound query string, and method, body, headers
from the (cloned) inbound request. -/
def mkCall (path : String) (request : Request) (headers : List (String × String)) :
    OutboundCall :=
  { path := path, search := request.search, method := request.method
    body := request.body, headers := headers }

/-- `makeRequest`: perform the forward call through the network oracle,
also reporting the call it made. -/
def makeRequest (net : Net) (path : String) (originalRequest : Request)
    (headers : List (String × String)) : FetchResult × OutboundCall :=
  (net (mkCall path originalRequest headers), mkCall path originalRequest headers)

/-- The backend path built inside `handleRequest`:
`/{webhookType}/{workflowId}`. -/
def hookPath (isTestHook : Bool) (workflowId : String) : String :=
  "/" ++ (if isTestHook then WEBHOOK_TYPES_TEST else WEBHOOK_TYPES_PRODUCTION)
      ++ "/" ++ workflowId

/-- `handleRequest`: forward to the chosen hook; a response with status
other than 200 is turned into a thrown `RequestError` carrying the
status and the response; a transport throw propagates.  The second
component is the trace of outbound calls (always exactly one). -/
def handleRequest (net : Net) (workflowId : String) (request : Request)
    (headers : List (String × String)) (isTestHook : Bool) :
    Except WorkerError Response × List OutboundCall :=
  let path := hookPath isTestHook workflowId
  match makeRequest net path request headers with
  | (.err e, call) => (.error (.transportError e), [call])
  | (.ok r, call) =>
    if r.status ≠ 200 then (.error (.requestError r.status r), [call])
    else (.ok r, [call])

/-- `executeWebhookStrategy`: look up the strategy (absent tokens fall
back to production-only through the truthiness check), run the primary
attempt, and on any thrown error check `strategy.fallback !== null`: an
`undefined` fallback (inherited pseudo-strategy) passes this check just
as a boolean does, so the fallback attempt runs and its outcome is
surfaced; only a `null` fallback rethrows.  The strategy fields are
consumed only for their truthiness (`isTestHook ? TEST : PRODUCTION`),
so the embedding coerces them to a hook flag at the call sites; the
`undefined` fields of an inherited pseudo-strategy coerce to false,
that is to the production hook. -/
def executeWebhookStrategy (net : Net) (workflowId : String) (request : Request)
    (headers : List (String × String)) (option : String) :
    Except WorkerError Response × List OutboundCall :=
  let strategy := strategyFor option
  match handleRequest net workflowId request headers strategy.primary.truthy with
  | (.ok r, calls) => (.ok r, calls)
  | (.error e, calls) =>
    if strategy.fallback ≠ JsVal.null then
      let second := handleRequest net workflowId request headers strategy.fallback.truthy
      (second.1, calls ++ second.2)
    else (.error e, calls)

/-- `createNotCachedResponse`: copy the response and force the three
cache-defeating headers. -/
def createNotCachedResponse (response : Response) : Response :=
  { response with
    headers :=
      headersSet
        (headersSet
          (headersSet response.headers
            "Cache-Control" "no-store, no-cache, must-revalidate, proxy-revalidate")
          "Pragma" "no-cache")
        "Expires" "0" }

/-- The fixed 500 response for a missing base URL. -/
def resp500 : Response :=
  { status := 500, body := "Error: N8N_BASE_URL environment variable is not set"
    headers := [] }

/-- The fixed 400 response for a missing workflow id. -/
def resp400 : Response :=
  { status := 400, body := "Error: No workflow ID provided in the URL"
    headers := [] }

/-- The exported `fetch` handler of the four-mode worker: environment
check, URL classification, dispatch, and cache-header finalization.  A
thrown error that escapes `executeWebhookStrategy` propagates out of
the handler (there is no surrounding try). -/
def workerFetch (net : Net) (env : String) (request : Request) :
    Except WorkerError Response × List OutboundCall :=
  if !(validateEnvironment env) then (.ok resp500, [])
  else
    let parsed := parseRequestUrl request
    if parsed.workflowId = "" then (.ok resp400, [])
    else
      let headers := prepareHeaders request.headers env
      match executeWebhookStrategy net parsed.workflowId request headers parsed.option with
      | (.ok r, calls) => (.ok (createNotCachedResponse r), calls)
      | (.error e, calls) => (.error e, calls)

/-! ### A model of `JSON.parse`

Used by the content-inspecting retry predicate.  The model follows the
full `JSON.parse` grammar: objects, arrays, strings (all escapes,
`\uXXXX` included, with surrogate-pair combination; raw control
characters rejected), numbers (sign, no leading zeros, optional
fraction and exponent, the exact decimal value kept as
mantissa × 10 ^ exponent), booleans, null; whitespace is the JSON set
(space, tab, line feed, carriage return).  Two representational
boundaries, neither observable through the retry predicate: a lone
surrogate escape denotes the replacement character, and number values
are exact decimals rather than rounded binary doubles. -/

/-- A JSON value.  A number is kept exactly as
`mantissa × 10 ^ exp10`. -/
inductive Json where
  | null
  | bool (b : Bool)
  | num (mantissa : Int) (exp10 : Int)
  | str (s : String)
  | arr (elems : List Json)
  | obj (fields : List (String × Json))

/-- Truthiness of a parsed JSON value in JavaScript (a parsed number is
falsy exactly when it is zero). -/
def jsTruthy : Json → Bool
  | .null => false
  | .bool b => b
  | .num m _ => m != 0
  | .str s => s != ""
  | .arr _ => true
  | .obj _ => true

/-- Property lookup on a parsed object; later duplicate keys overwrite
earlier ones, as in `JSON.parse`. -/
def Json.getField : Json → String → Option Json
  | .obj fields, k => ((fields.reverse).find? (fun p => p.1 == k)).map (fun p => p.2)
  | _, _ => none

/-- Whether the exact decimal `m × 10 ^ e` equals 404 (as the strict
equality `=== 404` on the parsed number does). -/
def numEq404 (m e : Int) : Bool :=
  if e ≥ 0 then m * (10 : Int) ^ e.toNat == 404
  else m == 404 * (10 : Int) ^ (-e).toNat

/-- `responseData.code === 404` on a parsed JSON value. -/
def codeIs404 (v : Json) : Bool :=
  match v.getField "code" with
  | some (.num m e) => numEq404 m e
  | _ => false

/-- The value of one hexadecimal digit. -/
def hexVal (c : Char) : Option Nat :=
  if c.isDigit then some (c.toNat - '0'.toNat)
  else if 'a' ≤ c ∧ c ≤ 'f' then some (c.toNat - 'a'.toNat + 10)
  else if 'A' ≤ c ∧ c ≤ 'F' then some (c.toNat - 'A'.toNat + 10)
  else none

/-- Four hexadecimal digits, as after a `\u` escape. -/
def hex4 : List Char → Option (Nat × List Char)
  | a :: b :: c :: d :: rest =>
    match hexVal a, hexVal b, hexVal c, hexVal d with
    | some x, some y, some z, some w => some (((x * 16 + y) * 16 + z) * 16 + w, rest)
    | _, _, _, _ => none
  | _ => none

/-- Whether a UTF-16 code unit is a high surrogate. -/
def isHighSur (n : Nat) : Bool := 0xD800 ≤ n && n ≤ 0xDBFF

/-- Whether a UTF-16 code unit is a low surrogate. -/
def isLowSur (n : Nat) : Bool := 0xDC00 ≤ n && n ≤ 0xDFFF

/-- Parse the body of a JSON string literal after the opening quote
(fuel-indexed); returns the decoded text and the remaining input.  Raw
control characters are rejected, every escape of the JSON grammar is
accepted; a `\u` high-surrogate escape followed by a low-surrogate
escape combines into the encoded code point, and a lone surrogate
escape — accepted by `JSON.parse` but not representable as a scalar
value — denotes the replacement character. -/
def parseStringBody : Nat → List Char → Option (String × List Char)
  | 0, _ => none
  | _, [] => none
  | fuel + 1, c :: cs =>
    if c == '\"' then some ("", cs)
    else if c.toNat < 0x20 then none
    else if c == '\\' then
      match cs with
      | [] => none
      | e :: cs₂ =>
        if e == 'u' then
          match hex4 cs₂ with
          | none => none
          | some (n, cs₃) =>
            if isHighSur n then
              match cs₃ with
              | '\\' :: 'u' :: cs₄ =>
                match hex4 cs₄ with
                | some (n₂, cs₅) =>
                  if isLowSur n₂ then
                    match parseStringBody fuel cs₅ with
                    | some (rest, r) =>
                      some (String.mk
                        [Char.ofNat (0x10000 + (n - 0xD800) * 0x400 + (n₂ - 0xDC00))]
                          ++ rest, r)
                    | none => none
                  else
                    match parseStringBody fuel cs₃ with
                    | some (rest, r) => some (String.mk [Char.ofNat 0xFFFD] ++ rest, r)
                    | none => none
                | none =>
                  match parseStringBody fuel cs₃ with
                  | some (rest, r) => some (String.mk [Char.ofNat 0xFFFD] ++ rest, r)
                  | none => none
              | _ =>
                match parseStringBody fuel cs₃ with
                | some (rest, r) => some (String.mk [Char.ofNat 0xFFFD] ++ rest, r)
                | none => none
            else if isLowSur n then
              match parseStringBody fuel cs₃ with
              | some (rest, r) => some (String.mk [Char.ofNat 0xFFFD] ++ rest, r)
              | none => none
            else
              match parseStringBody fuel cs₃ with
              | some (rest, r) => some (String.mk [Char.ofNat n] ++ rest, r)
              | none => none
        else
          let esc : Option Char :=
            if e == '\"' then some '\"'
            else if e == '\\' then some '\\'
            else if e == '/' then some '/'
            else if e == 'n' then some '\n'
            else if e == 't' then some '\t'
            else if e == 'r' then some '\r'
            else if e == 'b' then some (Char.ofNat 8)
            else if e == 'f' then some (Char.ofNat 12)
            else none
          match esc with
          | none => none
          | some d =>
            match parseStringBody fuel cs₂ with
            | none => none
            | some (rest, cs₃) => some (String.mk [d] ++ rest, cs₃)
    else
      match parseStringBody fuel cs with
      | none => none
      | some (rest, cs₃) => some (String.mk [c] ++ rest, cs₃)

/-- Take a maximal run of decimal digits. -/
def takeDigits : List Char → List Char × List Char
  | [] => ([], [])
  | c :: cs =>
    if c.isDigit then
      let (ds, rest) := takeDigits cs
      (c :: ds, rest)
    else ([], c :: cs)

/-- Numeric value of a digit run. -/
def digitsVal (ds : List Char) : Nat :=
  ds.foldl (fun acc c => acc * 10 + (c.toNat - '0'.toNat)) 0

/-- Parse the exponent part after the `e` or `E` marker: an optional
sign then at least one digit. -/
def parseExpPart (cs : List Char) : Option (Int × List Char) :=
  let (esign, cs₁) :=
    match cs with
    | '+' :: rest => (false, rest)
    | '-' :: rest => (true, rest)
    | _ => (false, cs)
  let (eds, cs₂) := takeDigits cs₁
  if eds.isEmpty then none
  else some ((if esign then -(digitsVal eds : Int) else (digitsVal eds : Int)), cs₂)

/-- Parse a JSON number per the `JSON.parse` grammar: optional minus,
integer part (a single zero, or a nonzero digit followed by digits —
after a leading zero no further digit is consumed, so a leading-zero
literal fails at the enclosing level exactly as `JSON.parse` rejects
it), optional fraction (dot then at least one digit), optional
exponent.  The exact decimal value is returned as mantissa and
power-of-ten exponent. -/
def parseNumber (cs : List Char) : Option ((Int × Int) × List Char) :=
  let (neg, cs₁) :=
    match cs with
    | '-' :: rest => (true, rest)
    | _ => (false, cs)
  match cs₁ with
  | [] => none
  | c :: cs₁t =>
    if !c.isDigit then none
    else
      let (ds, cs₂) := if c == '0' then ([c], cs₁t) else takeDigits cs₁
      let fracStep : Option (List Char × List Char) :=
        match cs₂ with
        | '.' :: rest =>
          let (fs, r) := takeDigits rest
          if fs.isEmpty then none else some (fs, r)
        | _ => some ([], cs₂)
      match fracStep with
      | none => none
      | some (fs, cs₃) =>
        let expStep : Option (Int × List Char) :=
          match cs₃ with
          | e :: rest =>
            if e == 'e' || e == 'E' then parseExpPart rest else some (0, cs₃)
          | [] => some (0, cs₃)
        match expStep with
        | none => none
        | some (ex, cs₄) =>
          let mag : Nat := digitsVal (ds ++ fs)
          let m : Int := if neg then -(mag : Int) else (mag : Int)
          some ((m, ex - (fs.length : Int)), cs₄)

mutual

/-- Parse one JSON value (fuel-indexed recursive descent). -/
def parseValue : Nat → List Char → Option (Json × List Char)
  | 0, _ => none
  | fuel + 1, cs =>
    match dropLeadingWs cs with
    | [] => none
    | c :: cs₁ =>
      if c == lbrace then
        match dropLeadingWs cs₁ with
        | d :: cs₂ =>
          if d == rbrace then some (.obj [], cs₂)
          else
            match parseMembers fuel (d :: cs₂) with
            | some (fs, rest) => some (.obj fs, rest)
            | none => none
        | [] => none
      else if c == '[' then
        match dropLeadingWs cs₁ with
        | d :: cs₂ =>
          if d == ']' then some (.arr [], cs₂)
          else
            match parseElements fuel (d :: cs₂) with
            | some (es, rest) => some (.arr es, rest)
            | none => none
        | [] => none
      else if c == '\"' then
        match parseStringBody (cs₁.length + 1) cs₁ with
        | some (s, rest) => some (.str s, rest)
        | none => none
      else
        match c :: cs₁ with
        | 't' :: 'r' :: 'u' :: 'e' :: rest => some (.bool true, rest)
        | 'f' :: 'a' :: 'l' :: 's' :: 'e' :: rest => some (.bool false, rest)
        | 'n' :: 'u' :: 'l' :: 'l' :: rest => some (.null, rest)
        | other =>
          match parseNumber other with
          | some ((m, e), rest) => some (.num m e, rest)
          | none => none

/-- Parse the members of an object after the opening brace (at least
one member; the empty object is handled by `parseValue`). -/
def parseMembers : Nat → List Char → Option (List (String × Json) × List Char)
  | 0, _ => none
  | fuel + 1, cs =>
    match dropLeadingWs cs with
    | c :: cs₁ =>
      if c == '\"' then
        match parseStringBody (cs₁.length + 1) cs₁ with
        | some (key, cs₂) =>
          match dropLeadingWs cs₂ with
          | ':' :: cs₃ =>
            match parseValue fuel cs₃ with
            | some (v, cs₄) =>
              match dropLeadingWs cs₄ with
              | d :: cs₅ =>
                if d == ',' then
                  match parseMembers fuel cs₅ with
                  | some (fs, cs₆) => some ((key, v) :: fs, cs₆)
                  | none => none
                else if d == rbrace then some ([(key, v)], cs₅)
                else none
              | [] => none
            | none => none
          | _ => none
        | none => none
      else none
    | [] => none

/-- Parse the elements of an array after the opening bracket (at least
one element; the empty array is handled by `parseValue`). -/
def parseElements : Nat → List Char → Option (List Json × List Char)
  | 0, _ => none
  | fuel + 1, cs =>
    match parseValue fuel cs with
    | some (v, cs₂) =>
      match dropLeadingWs cs₂ with
      | ',' :: cs₃ =>
        match parseElements fuel cs₃ with
        | some (es, cs₄) => some (v :: es, cs₄)
        | none => none
      | ']' :: cs₃ => some ([v], cs₃)
      | _ => none
    | none => none

end

/-- `JSON.parse`: parse one value and require only whitespace after it. -/
def jsonParse (s : String) : Option Json :=
  match parseValue (s.toList.length + 1) s.toList with
  | some (v, rest) => if (dropLeadingWs rest).isEmpty then some v else none
  | none => none

/-! ### The query-flag JavaScript worker (content-inspecting variant) -/

/-- The UTF-8 bytes of one character. -/
def utf8Bytes (c : Char) : List Nat :=
  let n := c.toNat
  if n < 0x80 then [n]
  else if n < 0x800 then [0xC0 + n / 64, 0x80 + n % 64]
  else if n < 0x10000 then
    [0xE0 + n / 4096, 0x80 + (n / 64) % 64, 0x80 + n % 64]
  else
    [0xF0 + n / 262144, 0x80 + (n / 4096) % 64, 0x80 + (n / 64) % 64, 0x80 + n % 64]

/-- The byte sequence a query-string token denotes after
`application/x-www-form-urlencoded` decoding: plus becomes a space, a
percent sign followed by two hexadecimal digits becomes that byte, a
malformed percent sequence stays literal, any other character
contributes its UTF-8 bytes. -/
def formDecodeBytes : List Char → List Nat
  | [] => []
  | '+' :: rest => 0x20 :: formDecodeBytes rest
  | '%' :: a :: b :: rest =>
    match hexVal a, hexVal b with
    | some x, some y => (16 * x + y) :: formDecodeBytes rest
    | _, _ => utf8Bytes '%' ++ formDecodeBytes (a :: b :: rest)
  | c :: rest => utf8Bytes c ++ formDecodeBytes rest

/-- `url.searchParams.has` for a query key: strip the leading question
mark, split on ampersands, take the part before the first equals sign
of each piece, decode it, and compare it byte for byte with the key
(the byte comparison decides exactly when the decoded name equals the
key, the sought keys being plain ASCII). -/
def searchParamsHas (search : String) (key : String) : Bool :=
  let q := match search.toList with
    | '?' :: rest => rest
    | other => other
  (splitOnChar '&' q).any
    (fun piece =>
      formDecodeBytes ((splitOnChar '=' piece).headD []) ==
        (key.toList.map utf8Bytes).flatten)

/-- `shouldTryWebhookTest` on a response body: an empty body or a body
whose trimmed text does not start with an opening brace never triggers
the test retry; otherwise the body is parsed as JSON and the retry
fires exactly when the parsed value is truthy with a `code` field equal
to 404; any parse failure is swallowed and answers false. -/
def shouldTryWebhookTest (body : String) : Bool :=
  if body == "" || !(trimStartsWithBrace body) then false
  else
    match jsonParse body with
    | some v => jsTruthy v && codeIs404 v
    | none => false

/-- `handleStandardRequest`: call the production hook; exactly on a 404
for which `shouldTryWebhookTest` accepts the body, call the test hook
and return its response; otherwise return the production response. -/
def handleStandardRequest (net : Net) (workflowId : String) (request : Request)
    (headers : List (String × String)) :
    Except WorkerError Response × List OutboundCall :=
  match makeRequest net ("/webhook/" ++ workflowId) request headers with
  | (.err e, call) => (.error (.transportError e), [call])
  | (.ok r, call) =>
    if r.status == 404 && shouldTryWebhookTest r.body then
      match makeRequest net ("/webhook-test/" ++ workflowId) request headers with
      | (.err e, call₂) => (.error (.transportError e), [call, call₂])
      | (.ok r₂, call₂) => (.ok r₂, [call, call₂])
    else (.ok r, [call])

/-- `handleTestParamRequest`: call the test hook first; on any non-200
status call the production hook and return its response unchecked. -/
def handleTestParamRequest (net : Net) (workflowId : String) (request : Request)
    (headers : List (String × String)) :
    Except WorkerError Response × List OutboundCall :=
  match makeRequest net ("/webhook-test/" ++ workflowId) request headers with
  | (.err e, call) => (.error (.transportError e), [call])
  | (.ok r, call) =>
    if r.status != 200 then
      match makeRequest net ("/webhook/" ++ workflowId) request headers with
      | (.err e, call₂) => (.error (.transportError e), [call, call₂])
      | (.ok r₂, call₂) => (.ok r₂, [call, call₂])
    else (.ok r, [call])

/-- The exported `fetch` handler of the query-flag worker: environment
check, workflow id = first path segment, branch on the presence of the
`t` query parameter, then cache-header finalization. -/
def fetchV2 (net : Net) (env : String) (request : Request) :
    Except WorkerError Response × List OutboundCall :=
  if !(validateEnvironment env) then (.ok resp500, [])
  else
    let workflowId := ((splitSegments '/' request.pathname)[0]?).getD ""
    if workflowId = "" then (.ok resp400, [])
    else
      let headers := prepareHeaders request.headers env
      let result :=
        if searchParamsHas request.search "t" then
          handleTestParamRequest net workflowId request headers
        else
          handleStandardRequest net workflowId request headers
      match result with
      | (.ok r, calls) => (.ok (createNotCachedResponse r), calls)
      | (.error e, calls) => (.error e, calls)

/-! ### The minimal JavaScript worker (`src/index.js`) -/

/-- The exported `fetch` handler of the minimal worker: environment
check, workflow id = first path segment, production call; on a 404 the
body is parsed as JSON inside a try block and, when the parsed value is
truthy with `code` equal to 404, the test hook is called and its
response replaces the original; a parse failure — or a throw of the
test fetch itself, which the same try block catches — keeps the
original 404 response.  No cache-header finalization. -/
def fetchSimple (net : Net) (env : String) (request : Request) :
    Except WorkerError Response × List OutboundCall :=
  if env == "" then (.ok resp500, [])
  else
    let workflowId := ((splitSegments '/' request.pathname)[0]?).getD ""
    if workflowId = "" then (.ok resp400, [])
    else
      let headers := prepareHeaders request.headers env
      match makeRequest net ("/webhook/" ++ workflowId) request headers with
      | (.err e, call) => (.error (.transportError e), [call])
      | (.ok r, call) =>
        if r.status == 404 then
          match jsonParse r.body with
          | some v =>
            if jsTruthy v && codeIs404 v then
              match makeRequest net ("/webhook-test/" ++ workflowId) request headers with
              | (.err _, call₂) => (.ok r, [call, call₂])
              | (.ok r₂, call₂) => (.ok r₂, [call, call₂])
            else (.ok r, [call])
          | none => (.ok r, [call])
        else (.ok r, [call])

/-! ### Planned candidate lists (for the dispatch-order invariant) -/

/-- The ordered candidate list (hook kinds) a mode resolves to, fixed
before any network call: the primary hook followed by the fallback
hook whenever the fallback value is not `null` — for an inherited
pseudo-strategy that second hook is the production hook again. -/
def candidateList (option : String) : List Bool :=
  (strategyFor option).primary.truthy ::
    (if (strategyFor option).fallback = JsVal.null then []
      else [(strategyFor option).fallback.truthy])

/-- The ordered backend paths planned for a mode and workflow id. -/
def plannedPaths (option workflowId : String) : List String :=
  (candidateList option).map (fun b => hookPath b workflowId)

/-- The ordered backend paths planned by the query-flag worker. -/
def plannedPathsV2 (hasT : Bool) (workflowId : String) : List String :=
  if hasT then ["/webhook-test/" ++ workflowId, "/webhook/" ++ workflowId]
  else ["/webhook/" ++ workflowId, "/webhook-test/" ++ workflowId]

/-! ### Basic lemmas about the dispatch strategy -/

/-- `handleRequest` on a transport throw: the throw propagates and one
call was made. -/
theorem handleRequest_err (net : Net) (wid : String) (req : Request)
    (hdrs : List (String × String)) (b : Bool) (e : String)
    (h : net (mkCall (hookPath b wid) req hdrs) = .err e) :
    handleRequest net wid req hdrs b =
      (.error (.transportError e), [mkCall (hookPath b wid) req hdrs]) := by
  simp [handleRequest, makeRequest, h]

/-- `handleRequest` on a 200 response: the response is returned and one
call was made. -/
theorem handleRequest_ok (net : Net) (wid : String) (req : Request)
    (hdrs : List (String × String)) (b : Bool) (r : Response)
    (h : net (mkCall (hookPath b wid) req hdrs) = .ok r) (h200 : r.status = 200) :
    handleRequest net wid req hdrs b = (.ok r, [mkCall (hookPath b wid) req hdrs]) := by
  simp [handleRequest, makeRequest, h, h200]

/-- `handleRequest` on a non-200 response: a `RequestError` carrying the
status and the response is thrown and one call was made. -/
theorem handleRequest_non200 (net : Net) (wid : String) (req : Request)
    (hdrs : List (String × String)) (b : Bool) (r : Response)
    (h : net (mkCall (hookPath b wid) req hdrs) = .ok r) (h200 : r.status ≠ 200) :
    handleRequest net wid req hdrs b =
      (.error (.requestError r.status r), [mkCall (hookPath b wid) req hdrs]) := by
  simp [handleRequest, makeRequest, h, h200]

/-- The trace of `handleRequest` is always exactly its one call. -/
theorem handleRequest_trace (net : Net) (wid : String) (req : Request)
    (hdrs : List (String × String)) (b : Bool) :
    (handleRequest net wid req hdrs b).2 = [mkCall (hookPath b wid) req hdrs] := by
  unfold handleRequest makeRequest
  match hn : net (mkCall (hookPath b wid) req hdrs) with
  | .err e => simp [hn]
  | .ok r =>
    by_cases h200 : r.status = 200 <;> simp [hn, h200]

/-- `executeWebhookStrategy` when the primary attempt succeeds. -/
theorem execute_primary_ok (net : Net) (wid : String) (req : Request)
    (hdrs : List (String × String)) (opt : String) (r : Response)
    (h : net (mkCall (hookPath (strategyFor opt).primary.truthy wid) req hdrs) = .ok r)
    (h200 : r.status = 200) :
    executeWebhookStrategy net wid req hdrs opt =
      (.ok r, [mkCall (hookPath (strategyFor opt).primary.truthy wid) req hdrs]) := by
  simp only [executeWebhookStrategy]
  rw [handleRequest_ok net wid req hdrs _ r h h200]

/-- `executeWebhookStrategy` when the primary attempt throws and the
strategy fallback is `null`: the primary throw is rethrown. -/
theorem execute_error_noFallback (net : Net) (wid : String) (req : Request)
    (hdrs : List (String × String)) (opt : String) (e : WorkerError)
    (calls : List OutboundCall)
    (h : handleRequest net wid req hdrs (strategyFor opt).primary.truthy =
      (.error e, calls))
    (hfb : (strategyFor opt).fallback = JsVal.null) :
    executeWebhookStrategy net wid req hdrs opt = (.error e, calls) := by
  simp [executeWebhookStrategy, h, hfb]

/-- `executeWebhookStrategy` when the primary attempt throws and the
strategy fallback is not `null` (a boolean, or the `undefined` read off
an inherited pseudo-strategy): the result is exactly the outcome of
the fallback attempt, appended to the trace. -/
theorem execute_error_fallback (net : Net) (wid : String) (req : Request)
    (hdrs : List (String × String)) (opt : String) (e : WorkerError)
    (calls : List OutboundCall) (fb : Bool)
    (h : handleRequest net wid req hdrs (strategyFor opt).primary.truthy =
      (.error e, calls))
    (hnn : (strategyFor opt).fallback ≠ JsVal.null)
    (hfb : (strategyFor opt).fallback.truthy = fb) :
    executeWebhookStrategy net wid req hdrs opt =
      ((handleRequest net wid req hdrs fb).1,
        calls ++ (handleRequest net wid req hdrs fb).2) := by
  simp [executeWebhookStrategy, h, hnn, hfb]

/-- `workerFetch` on a valid environment and workflow id forwards the
outcome of `executeWebhookStrategy`, finalizing a returned response and
propagating a thrown error unchanged. -/
theorem workerFetch_dispatch (net : Net) (env : String) (req : Request)
    (henv : env ≠ "") (hid : (parseRequestUrl req).workflowId ≠ "") :
    workerFetch net env req =
      (match executeWebhookStrategy net (parseRequestUrl req).workflowId req
          (prepareHeaders req.headers env) (parseRequestUrl req).option with
       | (.ok r, calls) => (.ok (createNotCachedResponse r), calls)
       | (.error e, calls) => (.error e, calls)) := by
  simp [workerFetch, validateEnvironment, henv, hid]

/-- The path of the call built by `makeRequest`. -/
theorem mkCall_path (path : String) (req : Request) (hdrs : List (String × String)) :
    (mkCall path req hdrs).path = path := rfl

/-- The trace of `executeWebhookStrategy` is a prefix of the planned
candidate paths of the mode, and has length at most two. -/
theorem execute_trace_planned (net : Net) (wid : String) (req : Request)
    (hdrs : List (String × String)) (opt : String) :
    (∃ k, (executeWebhookStrategy net wid req hdrs opt).2.map (fun c => c.path) =
      (plannedPaths opt wid).take k) ∧
    (executeWebhookStrategy net wid req hdrs opt).2.length ≤ 2 := by
  have ht := handleRequest_trace net wid req hdrs (strategyFor opt).primary.truthy
  rcases hhr : handleRequest net wid req hdrs (strategyFor opt).primary.truthy
    with ⟨res, calls⟩
  rw [hhr] at ht
  simp only at ht
  subst ht
  cases res with
  | ok r =>
    have : executeWebhookStrategy net wid req hdrs opt =
        (.ok r, [mkCall (hookPath (strategyFor opt).primary.truthy wid) req hdrs]) := by
      simp [executeWebhookStrategy, hhr]
    rw [this]
    refine ⟨⟨1, ?_⟩, by simp⟩
    simp [plannedPaths, candidateList, mkCall_path]
  | error e =>
    by_cases hfb : (strategyFor opt).fallback = JsVal.null
    · have := execute_error_noFallback net wid req hdrs opt e _ hhr hfb
      rw [this]
      refine ⟨⟨1, ?_⟩, by simp⟩
      simp [plannedPaths, candidateList, hfb, mkCall_path]
    · have := execute_error_fallback net wid req hdrs opt e _
        (strategyFor opt).fallback.truthy hhr hfb rfl
      rw [this]
      have ht₂ := handleRequest_trace net wid req hdrs (strategyFor opt).fallback.truthy
      refine ⟨⟨2, ?_⟩, by simp [ht₂]⟩
      simp [ht₂, plannedPaths, candidateList, hfb, mkCall_path]

/-- `workerFetch` performs the same calls as the dispatch it runs. -/
theorem workerFetch_trace (net : Net) (env : String) (req : Request)
    (henv : env ≠ "") (hid : (parseRequestUrl req).workflowId ≠ "") :
    (workerFetch net env req).2 =
      (executeWebhookStrategy net (parseRequestUrl req).workflowId req
        (prepareHeaders req.headers env) (parseRequestUrl req).option).2 := by
  rw [workerFetch_dispatch net env req henv hid]
  rcases executeWebhookStrategy net (parseRequestUrl req).workflowId req
      (prepareHeaders req.headers env) (parseRequestUrl req).option with ⟨res, calls⟩
  cases res <;> simp

/-- The trace of `handleStandardRequest` is a prefix of the
production-first planned paths, and has length at most two. -/
theorem handleStandardRequest_trace (net : Net) (wid : String) (req : Request)
    (hdrs : List (String × String)) :
    (∃ k, (handleStandardRequest net wid req hdrs).2.map (fun c => c.path) =
      (plannedPathsV2 false wid).take k) ∧
    (handleStandardRequest net wid req hdrs).2.length ≤ 2 := by
  unfold handleStandardRequest
  rcases hp : net (mkCall ("/webhook/" ++ wid) req hdrs) with r | e
  · rcases hretry : r.status == 404 && shouldTryWebhookTest r.body
    · simp only [makeRequest, hp, hretry]
      exact ⟨⟨1, by simp [plannedPathsV2, mkCall_path]⟩, by simp⟩
    · rcases hq : net (mkCall ("/webhook-test/" ++ wid) req hdrs) with r₂ | e₂ <;>
        simp only [makeRequest, hp, hretry, hq] <;>
        exact ⟨⟨2, by simp [plannedPathsV2, mkCall_path]⟩, by simp⟩
  · simp only [makeRequest, hp]
    exact ⟨⟨1, by simp [plannedPathsV2, mkCall_path]⟩, by simp⟩

/-- The trace of `handleTestParamRequest` is a prefix of the test-first
planned paths, and has length at most two. -/
theorem handleTestParamRequest_trace (net : Net) (wid : String) (req : Request)
    (hdrs : List (String × String)) :
    (∃ k, (handleTestParamRequest net wid req hdrs).2.map (fun c => c.path) =
      (plannedPathsV2 true wid).take k) ∧
    (handleTestParamRequest net wid req hdrs).2.length ≤ 2 := by
  unfold handleTestParamRequest
  rcases hp : net (mkCall ("/webhook-test/" ++ wid) req hdrs) with r | e
  · rcases hretry : r.status != 200
    · simp only [makeRequest, hp, hretry]
      exact ⟨⟨1, by simp [plannedPathsV2, mkCall_path]⟩, by simp⟩
    · rcases hq : net (mkCall ("/webhook/" ++ wid) req hdrs) with r₂ | e₂ <;>
        simp only [makeRequest, hp, hretry, hq] <;>
        exact ⟨⟨2, by simp [plannedPathsV2, mkCall_path]⟩, by simp⟩
  · simp only [makeRequest, hp]
    exact ⟨⟨1, by simp [plannedPathsV2, mkCall_path]⟩, by simp⟩

/-- Claim C7: for every inbound request, at most two outbound forward
attempts are made, and the attempt order is fully determined by the
routing mode before any network call: whatever the network oracle
answers, the trace of outbound paths is a prefix of the candidate-path
list resolved from the mode (respectively from the query flag in the
query-flag variants), with no adaptive reordering.  Stated for all
three embedded handlers. -/
theorem c7_at_most_two_attempts_fixed_order (net : Net) (env : String) (req : Request) :
    ((workerFetch net env req).2.length ≤ 2 ∧
      ∃ k, (workerFetch net env req).2.map (fun c => c.path) =
        (plannedPaths (parseRequestUrl req).option (parseRequestUrl req).workflowId).take k) ∧
    ((fetchV2 net env req).2.length ≤ 2 ∧
      ∃ k, (fetchV2 net env req).2.map (fun c => c.path) =
        (plannedPathsV2 (searchParamsHas req.search "t")
          (((splitSegments '/' req.pathname)[0]?).getD "")).take k) ∧
    ((fetchSimple net env req).2.length ≤ 2 ∧
      ∃ k, (fetchSimple net env req).2.map (fun c => c.path) =
        (plannedPathsV2 false (((splitSegments '/' req.pathname)[0]?).getD "")).take k) := by
  refine ⟨?_, ?_, ?_⟩
  · by_cases henv : env = ""
    · have : workerFetch net env req = (.ok resp500, []) := by
        simp [workerFetch, validateEnvironment, henv]
      rw [this]
      exact ⟨by simp, 0, by simp⟩
    · by_cases hid : (parseRequestUrl req).workflowId = ""
      · have : workerFetch net env req = (.ok resp400, []) := by
          simp [workerFetch, validateEnvironment, henv, hid]
        rw [this]
        exact ⟨by simp, 0, by simp⟩
      · rw [workerFetch_trace net env req henv hid]
        have h := execute_trace_planned net (parseRequestUrl req).workflowId req
          (prepareHeaders req.headers env) (parseRequestUrl req).option
        exact ⟨h.2, h.1⟩
  · by_cases henv : env = ""
    · have : fetchV2 net env req = (.ok resp500, []) := by
        simp [fetchV2, validateEnvironment, henv]
      rw [this]
      exact ⟨by simp, 0, by simp⟩
    · by_cases hid : ((splitSegments '/' req.pathname)[0]?).getD "" = ""
      · have : fetchV2 net env req = (.ok resp400, []) := by
          simp [fetchV2, validateEnvironment, henv, hid]
        rw [this]
        exact ⟨by simp, 0, by simp⟩
      · have htr : (fetchV2 net env req).2 =
            (if searchParamsHas req.search "t" then
              handleTestParamRequest net (((splitSegments '/' req.pathname)[0]?).getD "")
                req (prepareHeaders req.headers env)
            else
              handleStandardRequest net (((splitSegments '/' req.pathname)[0]?).getD "")
                req (prepareHeaders req.headers env)).2 := by
          simp only [fetchV2, validateEnvironment]
          rw [if_neg (by simp [henv]), if_neg hid]
          rcases (if searchParamsHas req.search "t" then
              handleTestParamRequest net (((splitSegments '/' req.pathname)[0]?).getD "")
                req (prepareHeaders req.headers env)
            else
              handleStandardRequest net (((splitSegments '/' req.pathname)[0]?).getD "")
                req (prepareHeaders req.headers env)) with ⟨res, calls⟩
          cases res <;> simp
        rw [htr]
        by_cases hasT : searchParamsHas req.search "t"
        · rw [if_pos hasT, hasT]
          have h := handleTestParamRequest_trace net
            (((splitSegments '/' req.pathname)[0]?).getD "") req
            (prepareHeaders req.headers env)
          exact ⟨h.2, h.1⟩
        · rw [if_neg hasT, Bool.eq_false_iff.mpr hasT]
          have h := handleStandardRequest_trace net
            (((splitSegments '/' req.pathname)[0]?).getD "") req
            (prepareHeaders req.headers env)
          exact ⟨h.2, h.1⟩
  · by_cases henv : env = ""
    · have : fetchSimple net env req = (.ok resp500, []) := by
        simp [fetchSimple, henv]
      rw [this]
      exact ⟨by simp, 0, by simp⟩
    · simp only [fetchSimple]
      rw [if_neg (by simp [henv])]
      by_cases hid : ((splitSegments '/' req.pathname)[0]?).getD "" = ""
      · rw [if_pos hid]
        exact ⟨by simp, 0, by simp⟩
      · rw [if_neg hid]
        rcases hp : net (mkCall ("/webhook/" ++ ((splitSegments '/' req.pathname)[0]?).getD "")
            req (prepareHeaders req.headers env)) with r | e
        · simp only [makeRequest, hp]
          cases h404 : r.status == 404
          · simp only [h404, Bool.false_eq_true, if_false]
            exact ⟨by simp, 1, by simp [plannedPathsV2, mkCall_path]⟩
          · simp only [h404, if_true]
            cases hj : jsonParse r.body with
            | none =>
              simp only [hj]
              exact ⟨by simp, 1, by simp [plannedPathsV2, mkCall_path]⟩
            | some v =>
              simp only [hj]
              cases htr : jsTruthy v && codeIs404 v
              · simp only [htr, Bool.false_eq_true, if_false]
                exact ⟨by simp, 1, by simp [plannedPathsV2, mkCall_path]⟩
              · simp only [htr, if_true]
                rcases hq : net (mkCall
                    ("/webhook-test/" ++ ((splitSegments '/' req.pathname)[0]?).getD "")
                    req (prepareHeaders req.headers env)) with r₂ | e₂ <;>
                  simp only [makeRequest, hq] <;>
                  exact ⟨by simp, 2, by simp [plannedPathsV2, mkCall_path]⟩
        · simp only [makeRequest, hp]
          exact ⟨by simp, 1, by simp [plannedPathsV2, mkCall_path]⟩

/-- Claim C3: the dispatch resolves each routing mode to the fixed
candidate order of the policy table (tp: test then production; pt:
production then test; t: test only; p: production only; `true` denotes
the test hook), and for mode `tp` whose primary (test) attempt yields a
non-200 response, exactly two outbound calls occur, test path first and
production path second, both carrying the inbound query string and
body. -/
theorem c3_strategy_order_and_two_calls (net : Net) (wid : String) (req : Request)
    (hdrs : List (String × String)) (r : Response)
    (h : net (mkCall (hookPath true wid) req hdrs) = .ok r)
    (h200 : r.status ≠ 200) :
    (candidateList "tp" = [true, false] ∧ candidateList "pt" = [false, true] ∧
      candidateList "t" = [true] ∧ candidateList "p" = [false]) ∧
    (executeWebhookStrategy net wid req hdrs "tp").2 =
      [mkCall (hookPath true wid) req hdrs, mkCall (hookPath false wid) req hdrs] ∧
    ∀ c ∈ (executeWebhookStrategy net wid req hdrs "tp").2,
      c.search = req.search ∧ c.body = req.body := by
  have hpr : handleRequest net wid req hdrs (strategyFor "tp").primary.truthy =
      (.error (.requestError r.status r), [mkCall (hookPath true wid) req hdrs]) :=
    handleRequest_non200 net wid req hdrs true r h h200
  have hx := execute_error_fallback net wid req hdrs "tp"
    (.requestError r.status r) [mkCall (hookPath true wid) req hdrs] false hpr
    (by decide) rfl
  have ht₂ := handleRequest_trace net wid req hdrs false
  have htr : (executeWebhookStrategy net wid req hdrs "tp").2 =
      [mkCall (hookPath true wid) req hdrs, mkCall (hookPath false wid) req hdrs] := by
    rw [hx]
    simp [ht₂]
  refine ⟨⟨rfl, rfl, rfl, rfl⟩, htr, ?_⟩
  rw [htr]
  intro c hc
  rcases List.mem_pair.mp hc with h₁ | h₁ <;> subst h₁ <;> exact ⟨rfl, rfl⟩

/-- A sample inbound request addressed to mode `tp`, workflow `123`. -/
def reqTP : Request :=
  { method := "POST", pathname := "/tp/123", search := "?param=value"
    body := "hello", headers := [("content-type", "text/plain")] }

/-- A network oracle for which the test hook answers 404 and every
other call answers 200. -/
def netTestFails : Net := fun c =>
  if c.path == "/webhook-test/123" then .ok { status := 404, body := "nf", headers := [] }
  else .ok { status := 200, body := "ok", headers := [] }

/-- Concrete instance of claim C3: with the test hook answering 404,
mode tp performs exactly the test call and then the production call. -/
theorem c3_witness :
    netTestFails (mkCall (hookPath true "123") reqTP []) =
      .ok { status := 404, body := "nf", headers := [] } ∧
    (404 : Nat) ≠ 200 ∧
    (executeWebhookStrategy netTestFails "123" reqTP [] "tp").2 =
      [mkCall (hookPath true "123") reqTP [], mkCall (hookPath false "123") reqTP []] :=
  ⟨rfl, by decide,
    (c3_strategy_order_and_two_calls netTestFails "123" reqTP []
      { status := 404, body := "nf", headers := [] } rfl (by decide)).2.1⟩

/-- Claim C1 (amended): when all candidates are exhausted (every
attempt returned a non-200 status), the dispatch does not return a
response at all: the last attempt throws a `RequestError` carrying that
attempt's real status and response unmodified, the error propagates out
of the `fetch` handler unchanged, and no synthetic 502/500 response is
built by the worker.  First conjunct: strategies whose fallback value
is not `null` (the retrying modes, and the prototype-inherited
pseudo-strategies); second: strategies with a `null` fallback; third:
the handler propagates the thrown error as is. -/
theorem c1_exhaustion_throws_last_error (net : Net) (wid : String) (req : Request)
    (hdrs : List (String × String)) (opt : String) :
    (∀ r₁ r₂, (strategyFor opt).fallback ≠ JsVal.null →
      net (mkCall (hookPath (strategyFor opt).primary.truthy wid) req hdrs) = .ok r₁ →
      r₁.status ≠ 200 →
      net (mkCall (hookPath (strategyFor opt).fallback.truthy wid) req hdrs) = .ok r₂ →
      r₂.status ≠ 200 →
      executeWebhookStrategy net wid req hdrs opt =
        (.error (.requestError r₂.status r₂),
          [mkCall (hookPath (strategyFor opt).primary.truthy wid) req hdrs,
            mkCall (hookPath (strategyFor opt).fallback.truthy wid) req hdrs])) ∧
    (∀ r₁, (strategyFor opt).fallback = JsVal.null →
      net (mkCall (hookPath (strategyFor opt).primary.truthy wid) req hdrs) = .ok r₁ →
      r₁.status ≠ 200 →
      executeWebhookStrategy net wid req hdrs opt =
        (.error (.requestError r₁.status r₁),
          [mkCall (hookPath (strategyFor opt).primary.truthy wid) req hdrs])) ∧
    (∀ env e calls, env ≠ "" → (parseRequestUrl req).workflowId ≠ "" →
      executeWebhookStrategy net (parseRequestUrl req).workflowId req
        (prepareHeaders req.headers env) (parseRequestUrl req).option = (.error e, calls) →
      workerFetch net env req = (.error e, calls)) := by
  refine ⟨?_, ?_, ?_⟩
  · intro r₁ r₂ hfb h₁ h₁s h₂ h₂s
    have hpr := handleRequest_non200 net wid req hdrs
      (strategyFor opt).primary.truthy r₁ h₁ h₁s
    have hx := execute_error_fallback net wid req hdrs opt
      (.requestError r₁.status r₁) _ (strategyFor opt).fallback.truthy hpr hfb rfl
    rw [hx, handleRequest_non200 net wid req hdrs
      (strategyFor opt).fallback.truthy r₂ h₂ h₂s]
    simp
  · intro r₁ hfb h₁ h₁s
    have hpr := handleRequest_non200 net wid req hdrs
      (strategyFor opt).primary.truthy r₁ h₁ h₁s
    exact execute_error_noFallback net wid req hdrs opt _ _ hpr hfb
  · intro env e calls henv hid hexec
    rw [workerFetch_dispatch net env req henv hid, hexec]

/-- A network oracle for which the test hook answers 404 and every
other call answers 502: all candidates are exhausted for mode tp. -/
def netAllFail : Net := fun c =>
  if c.path == "/webhook-test/123" then
    .ok { status := 404, body := "test failed", headers := [] }
  else
    .ok { status := 502, body := "prod failed", headers := [] }

/-- Counterexample to claim C1 as stated: with mode tp and both
attempts non-200, the handler does not return the last attempt's
response (plain or cache-wrapped) — it propagates a thrown
`RequestError` instead (which does carry the last status and body). -/
theorem c1_counterexample :
    workerFetch netAllFail "https://n8n.example.com" reqTP =
      (.error (.requestError 502 { status := 502, body := "prod failed", headers := [] }),
        [mkCall (hookPath true "123") reqTP
          (prepareHeaders reqTP.headers "https://n8n.example.com"),
          mkCall (hookPath false "123") reqTP
            (prepareHeaders reqTP.headers "https://n8n.example.com")]) ∧
    (workerFetch netAllFail "https://n8n.example.com" reqTP).1 ≠
      .ok { status := 502, body := "prod failed", headers := [] } ∧
    (workerFetch netAllFail "https://n8n.example.com" reqTP).1 ≠
      .ok (createNotCachedResponse { status := 502, body := "prod failed", headers := [] }) := by
  refine ⟨rfl, ?_, ?_⟩ <;> decide

/-- Concrete instance of the amended claim C1: with both attempts
non-200 under mode tp, the dispatch ends in the fallback attempt's
`RequestError`. -/
theorem c1_witness :
    executeWebhookStrategy netAllFail "123" reqTP [] "tp" =
      (.error (.requestError 502 { status := 502, body := "prod failed", headers := [] }),
        [mkCall (hookPath true "123") reqTP [], mkCall (hookPath false "123") reqTP []]) :=
  (c1_exhaustion_throws_last_error netAllFail "123" reqTP [] "tp").1
    { status := 404, body := "test failed", headers := [] }
    { status := 502, body := "prod failed", headers := [] }
    (by decide) rfl (by decide) rfl (by decide)

/-- Claim C2 (amended): under mode `t` (test only) exactly one
outbound call occurs, whatever the network answers; when that response
has status 200 it is returned verbatim (the boundary then only
overrides the cache headers); when it has any other status no response
is returned — a `RequestError` carrying that status and response is
thrown instead. -/
theorem c2_test_only_single_call (net : Net) (wid : String) (req : Request)
    (hdrs : List (String × String)) :
    (executeWebhookStrategy net wid req hdrs "t").2 =
      [mkCall (hookPath true wid) req hdrs] ∧
    (∀ r, net (mkCall (hookPath true wid) req hdrs) = .ok r → r.status = 200 →
      (executeWebhookStrategy net wid req hdrs "t").1 = .ok r) ∧
    (∀ r, net (mkCall (hookPath true wid) req hdrs) = .ok r → r.status ≠ 200 →
      (executeWebhookStrategy net wid req hdrs "t").1 =
        .error (.requestError r.status r)) := by
  refine ⟨?_, ?_, ?_⟩
  · have hsp : (strategyFor "t").primary.truthy = true := rfl
    have ht := handleRequest_trace net wid req hdrs true
    rcases hhr : handleRequest net wid req hdrs true with ⟨res, calls⟩
    rw [hhr] at ht
    simp only at ht
    subst ht
    cases res with
    | ok r => simp [executeWebhookStrategy, hsp, hhr]
    | error e =>
      rw [execute_error_noFallback net wid req hdrs "t" e _ (hsp ▸ hhr) rfl]
      simp [hsp]
  · intro r h h200
    rw [execute_primary_ok net wid req hdrs "t" r h h200]
  · intro r h h200
    have hpr := handleRequest_non200 net wid req hdrs
      (strategyFor "t").primary.truthy r h h200
    rw [execute_error_noFallback net wid req hdrs "t" _ _ hpr rfl]

/-- A request addressed to mode `t` (test only), workflow `123`. -/
def reqT : Request :=
  { method := "GET", pathname := "/t/123", search := "", body := ""
    headers := [] }

/-- Counterexample to claim C2 as stated: under mode `t` with the test
hook answering 404, one call is made, but the 404 response is not
returned to the caller — a `RequestError` carrying it is thrown. -/
theorem c2_counterexample :
    (workerFetch netTestFails "https://n8n.example.com" reqT).2.length = 1 ∧
    (workerFetch netTestFails "https://n8n.example.com" reqT).1 =
      .error (.requestError 404 { status := 404, body := "nf", headers := [] }) ∧
    (workerFetch netTestFails "https://n8n.example.com" reqT).1 ≠
      .ok { status := 404, body := "nf", headers := [] } ∧
    (workerFetch netTestFails "https://n8n.example.com" reqT).1 ≠
      .ok (createNotCachedResponse { status := 404, body := "nf", headers := [] }) := by
  refine ⟨rfl, rfl, ?_, ?_⟩ <;> decide

/-- Concrete instance of the amended claim C2: one call under mode `t`,
and the non-200 outcome is the thrown `RequestError`. -/
theorem c2_witness :
    (executeWebhookStrategy netTestFails "123" reqT [] "t").2 =
      [mkCall (hookPath true "123") reqT []] ∧
    (executeWebhookStrategy netTestFails "123" reqT [] "t").1 =
      .error (.requestError 404 { status := 404, body := "nf", headers := [] }) :=
  ⟨(c2_test_only_single_call netTestFails "123" reqT []).1,
    (c2_test_only_single_call netTestFails "123" reqT []).2.2
      { status := 404, body := "nf", headers := [] } rfl (by decide)⟩

/-- When the strategy fallback is `null`, exactly the one primary call
is made, whatever its outcome. -/
theorem execute_noFallback_trace (net : Net) (wid : String) (req : Request)
    (hdrs : List (String × String)) (opt : String)
    (hfb : (strategyFor opt).fallback = JsVal.null) :
    (executeWebhookStrategy net wid req hdrs opt).2 =
      [mkCall (hookPath (strategyFor opt).primary.truthy wid) req hdrs] := by
  have ht := handleRequest_trace net wid req hdrs (strategyFor opt).primary.truthy
  rcases hhr : handleRequest net wid req hdrs (strategyFor opt).primary.truthy
    with ⟨res, calls⟩
  rw [hhr] at ht
  simp only at ht
  subst ht
  cases res with
  | ok r => simp [executeWebhookStrategy, hhr]
  | error e => rw [execute_error_noFallback net wid req hdrs opt e _ hhr hfb]

/-- Claim C5: when the primary attempt throws a transport-level failure
(not merely a non-2xx status): with a `null` fallback the primary
failure is propagated (first conjunct); with any other fallback value —
a boolean, or the `undefined` of a prototype-inherited pseudo-strategy
— the fallback is attempted and its outcome, success or failure, is
exactly what is surfaced, the primary failure being discarded (second
conjunct); in particular when the fallback also fails at transport
level, the fallback failure is the one surfaced (third conjunct). -/
theorem c5_transport_failure_fallback (net : Net) (wid : String) (req : Request)
    (hdrs : List (String × String)) (opt : String) (e : String)
    (h : net (mkCall (hookPath (strategyFor opt).primary.truthy wid) req hdrs) = .err e) :
    ((strategyFor opt).fallback = JsVal.null →
      executeWebhookStrategy net wid req hdrs opt =
        (.error (.transportError e),
          [mkCall (hookPath (strategyFor opt).primary.truthy wid) req hdrs])) ∧
    ((strategyFor opt).fallback ≠ JsVal.null →
      executeWebhookStrategy net wid req hdrs opt =
        ((handleRequest net wid req hdrs (strategyFor opt).fallback.truthy).1,
          mkCall (hookPath (strategyFor opt).primary.truthy wid) req hdrs ::
            (handleRequest net wid req hdrs (strategyFor opt).fallback.truthy).2)) ∧
    (∀ e₂, (strategyFor opt).fallback ≠ JsVal.null →
      net (mkCall (hookPath (strategyFor opt).fallback.truthy wid) req hdrs) = .err e₂ →
      (executeWebhookStrategy net wid req hdrs opt).1 =
        .error (.transportError e₂)) := by
  have hpr := handleRequest_err net wid req hdrs (strategyFor opt).primary.truthy e h
  refine ⟨?_, ?_, ?_⟩
  · intro hfb
    exact execute_error_noFallback net wid req hdrs opt _ _ hpr hfb
  · intro hfb
    rw [execute_error_fallback net wid req hdrs opt _ _
      (strategyFor opt).fallback.truthy hpr hfb rfl]
    simp
  · intro e₂ hfb h₂
    rw [execute_error_fallback net wid req hdrs opt _ _
      (strategyFor opt).fallback.truthy hpr hfb rfl]
    rw [handleRequest_err net wid req hdrs (strategyFor opt).fallback.truthy e₂ h₂]

/-- A network oracle where the test hook connection fails with one
transport error and the production hook with another. -/
def netDown : Net := fun c =>
  if c.path == "/webhook-test/123" then .err "ECONNREFUSED" else .err "ECONNRESET"

/-- Concrete instance of claim C5: under mode tp both attempts fail at
transport level and the fallback (production) failure is the one
surfaced; under mode t the primary failure is propagated; under the
prototype-inherited token `constructor` the retried production attempt
is the one surfaced. -/
theorem c5_witness :
    (executeWebhookStrategy netDown "123" reqTP [] "tp").1 =
      .error (.transportError "ECONNRESET") ∧
    executeWebhookStrategy netDown "123" reqTP [] "t" =
      (.error (.transportError "ECONNREFUSED"),
        [mkCall (hookPath true "123") reqTP []]) ∧
    (executeWebhookStrategy netDown "123" reqTP [] "constructor").1 =
      .error (.transportError "ECONNRESET") :=
  ⟨(c5_transport_failure_fallback netDown "123" reqTP [] "tp" "ECONNREFUSED" rfl).2.2
      "ECONNRESET" (by decide) rfl,
    (c5_transport_failure_fallback netDown "123" reqTP [] "t" "ECONNREFUSED" rfl).1 rfl,
    (c5_transport_failure_fallback netDown "123" reqTP [] "constructor"
      "ECONNRESET" rfl).2.2 "ECONNRESET" (by decide) rfl⟩

/-- A network oracle answering 200 to everything. -/
def netAllOk : Net := fun _ => .ok { status := 200, body := "ok", headers := [] }

/-- Claim C6 (code-bug exhibit): the mode token `constructor` names an
inherited `Object.prototype` member, so the strategy lookup finds a
truthy non-strategy value instead of falling through to the
production-only default, and its `undefined` fallback is not `null`:
after a failed production attempt the dispatch makes a second
production attempt — two outbound calls, not identical to mode `p`
(one call).  The first conjunct evaluates the embedded code at the
failing input; the last shows that a plain unrecognized token such as
`xyz` does collapse to the production-only strategy, so the defect is
specific to the prototype-inherited names. -/
theorem c6_prototype_chain_retry :
    (executeWebhookStrategy netAllFail "123" reqTP [] "constructor").2 =
      [mkCall (hookPath false "123") reqTP [], mkCall (hookPath false "123") reqTP []] ∧
    (executeWebhookStrategy netAllFail "123" reqTP [] "p").2 =
      [mkCall (hookPath false "123") reqTP []] ∧
    (executeWebhookStrategy netAllFail "123" reqTP [] "constructor").2 ≠
      (executeWebhookStrategy netAllFail "123" reqTP [] "p").2 ∧
    strategyFor "xyz" = strategyFor "p" := by
  refine ⟨rfl, rfl, by decide, rfl⟩

/-- A body that does not parse as JSON never triggers the test retry:
the parse failure is swallowed and answered as false. -/
theorem shouldTry_of_parse_none (body : String) (h : jsonParse body = none) :
    shouldTryWebhookTest body = false := by
  by_cases hg : (body == "" || !(trimStartsWithBrace body)) = true
  · simp [shouldTryWebhookTest, hg]
  · simp [shouldTryWebhookTest, hg, h]

/-- Claim C4: under the content-inspecting retry policy, a primary 404
response with body `\x7b"code":404\x7d` triggers exactly one fallback call (two
outbound calls in total, production then test); a 404 whose body does
not parse as JSON triggers no retry and the 404 response itself is
returned, the parsing failure being swallowed locally and never
surfaced; the two concrete bodies of the claim behave accordingly, and
the fractional spelling `\x7b"code":404.0\x7d` — equal to 404 under the
strict number comparison — also triggers the retry. -/
theorem c4_content_inspecting_retry (net : Net) (wid : String) (req : Request)
    (hdrs : List (String × String)) (r : Response)
    (hp : net (mkCall ("/webhook/" ++ wid) req hdrs) = .ok r)
    (h404 : r.status = 404) :
    (r.body = "\x7b\"code\":404\x7d" →
      (handleStandardRequest net wid req hdrs).2 =
        [mkCall ("/webhook/" ++ wid) req hdrs,
          mkCall ("/webhook-test/" ++ wid) req hdrs]) ∧
    (jsonParse r.body = none →
      handleStandardRequest net wid req hdrs =
        (.ok r, [mkCall ("/webhook/" ++ wid) req hdrs])) ∧
    shouldTryWebhookTest "\x7b\"code\":404\x7d" = true ∧
    shouldTryWebhookTest "Not found" = false ∧
    shouldTryWebhookTest "\x7b\"code\":404.0\x7d" = true := by
  refine ⟨?_, ?_, rfl, rfl, rfl⟩
  · intro hb
    have hc : (r.status == 404 && shouldTryWebhookTest r.body) = true := by
      rw [h404, hb]
      rfl
    unfold handleStandardRequest
    rcases hq : net (mkCall ("/webhook-test/" ++ wid) req hdrs) with r₂ | e₂ <;>
      simp [makeRequest, hp, hc, hq]
  · intro hn
    have hc : (r.status == 404 && shouldTryWebhookTest r.body) = false := by
      rw [shouldTry_of_parse_none r.body hn]
      simp
    unfold handleStandardRequest
    simp [makeRequest, hp, hc]

/-- A network oracle whose production hook answers the JSON-404 body
and whose test hook answers 200. -/
def netJson404 : Net := fun c =>
  if c.path == "/webhook/123" then
    .ok { status := 404, body := "\x7b\"code\":404\x7d", headers := [] }
  else .ok { status := 200, body := "ok", headers := [] }

/-- A network oracle whose production hook answers a plain-text 404. -/
def netPlain404 : Net := fun c =>
  if c.path == "/webhook/123" then
    .ok { status := 404, body := "Not found", headers := [] }
  else .ok { status := 200, body := "ok", headers := [] }

/-- Concrete instance of claim C4: the JSON-404 body produces the two
calls production then test; the plain-text 404 body produces a single
call and the 404 response itself. -/
theorem c4_witness :
    (handleStandardRequest netJson404 "123" reqTP []).2 =
      [mkCall ("/webhook/" ++ "123") reqTP [],
        mkCall ("/webhook-test/" ++ "123") reqTP []] ∧
    handleStandardRequest netPlain404 "123" reqTP [] =
      (.ok { status := 404, body := "Not found", headers := [] },
        [mkCall ("/webhook/" ++ "123") reqTP []]) :=
  ⟨(c4_content_inspecting_retry netJson404 "123" reqTP []
      { status := 404, body := "\x7b\"code\":404\x7d", headers := [] } rfl rfl).1 rfl,
    (c4_content_inspecting_retry netPlain404 "123" reqTP []
      { status := 404, body := "Not found", headers := [] } rfl rfl).2.1 rfl⟩

/-! ### Header lemmas for the finalization step -/

/-- Filtering out entries that a predicate never selects does not
change the result of `find?`. -/
theorem find?_filter_keep {α : Type} (l : List α) (p q : α → Bool)
    (h : ∀ x, p x = true → q x = true) :
    (l.filter q).find? p = l.find? p := by
  induction l with
  | nil => rfl
  | cons a tl ih =>
    cases hq : q a
    · have hp : p a = false := by
        cases hp : p a
        · rfl
        · rw [h a hp] at hq
          exact absurd hq (by simp)
      simp [List.filter_cons, hq, List.find?_cons, hp, ih]
    · cases hp : p a <;> simp [List.filter_cons, hq, List.find?_cons, hp, ih]

/-- After `headersSet hs name value`, getting `name` (up to case)
yields the new value. -/
theorem headersGet_set_self (hs : List (String × String)) (name value : String) :
    headersGet (headersSet hs name value) name = some value := by
  unfold headersGet headersSet
  rw [List.find?_append]
  have hnone : (hs.filter (fun p => !(lowerStr p.1 == lowerStr name))).find?
      (fun p => lowerStr p.1 == lowerStr name) = none := by
    rw [List.find?_eq_none]
    intro x hx
    rcases List.mem_filter.mp hx with ⟨-, hkeep⟩
    simp only [Bool.not_eq_true'] at hkeep
    simp [hkeep]
  rw [hnone]
  simp

/-- After `headersSet hs name value`, getting any other header name (up
to case) is unchanged. -/
theorem headersGet_set_other (hs : List (String × String)) (name name' value : String)
    (h : lowerStr name' ≠ lowerStr name) :
    headersGet (headersSet hs name value) name' = headersGet hs name' := by
  unfold headersGet headersSet
  rw [List.find?_append]
  rw [find?_filter_keep hs (fun p => lowerStr p.1 == lowerStr name')
    (fun p => !(lowerStr p.1 == lowerStr name))
    (by
      intro x hx
      simp only [beq_iff_eq] at hx
      simp [hx, h])]
  have hb : (lowerStr name == lowerStr name') = false := by
    simp [Ne.symm h]
  have hsingle : ([(name, value)] : List (String × String)).find?
      (fun p => lowerStr p.1 == lowerStr name') = none := by
    simp [List.find?_cons, hb]
  rw [hsingle]
  cases hs.find? (fun p => lowerStr p.1 == lowerStr name') <;> rfl

/-- Getting the cache-control header of a finalized response yields the
forced override. -/
theorem cnc_get_cacheControl (r : Response) :
    headersGet (createNotCachedResponse r).headers "Cache-Control" =
      some "no-store, no-cache, must-revalidate, proxy-revalidate" := by
  unfold createNotCachedResponse
  rw [headersGet_set_other _ "Expires" "Cache-Control" _ (by decide),
    headersGet_set_other _ "Pragma" "Cache-Control" _ (by decide),
    headersGet_set_self]

/-- Getting the pragma header of a finalized response yields the forced
override. -/
theorem cnc_get_pragma (r : Response) :
    headersGet (createNotCachedResponse r).headers "Pragma" = some "no-cache" := by
  unfold createNotCachedResponse
  rw [headersGet_set_other _ "Expires" "Pragma" _ (by decide), headersGet_set_self]

/-- Getting the expires header of a finalized response yields the
forced override. -/
theorem cnc_get_expires (r : Response) :
    headersGet (createNotCachedResponse r).headers "Expires" = some "0" := by
  unfold createNotCachedResponse
  rw [headersGet_set_self]

/-- Getting any header other than the three overridden ones from a
finalized response is unchanged. -/
theorem cnc_get_other (r : Response) (name : String)
    (h : lowerStr name ∉ (["cache-control", "pragma", "expires"] : List String)) :
    headersGet (createNotCachedResponse r).headers name = headersGet r.headers name := by
  simp only [List.mem_cons, List.mem_singleton, not_or] at h
  obtain ⟨h₁, h₂, h₃⟩ := h
  unfold createNotCachedResponse
  rw [headersGet_set_other _ "Expires" name _ (by simpa using h₃),
    headersGet_set_other _ "Pragma" name _ (by simpa using h₂),
    headersGet_set_other _ "Cache-Control" name _ (by simpa using h₁)]

/-- Claim C9: finalization preserves the body and status of any input
response exactly and preserves every header other than cache control,
pragma and expires, while those three take the fixed override values
regardless of any pre-existing values (lookups are case-insensitive, as
in the Fetch API). -/
theorem c9_finalization_preserves_and_overrides (r : Response) (name : String)
    (h : lowerStr name ∉ (["cache-control", "pragma", "expires"] : List String)) :
    (createNotCachedResponse r).body = r.body ∧
    (createNotCachedResponse r).status = r.status ∧
    headersGet (createNotCachedResponse r).headers "Cache-Control" =
      some "no-store, no-cache, must-revalidate, proxy-revalidate" ∧
    headersGet (createNotCachedResponse r).headers "Pragma" = some "no-cache" ∧
    headersGet (createNotCachedResponse r).headers "Expires" = some "0" ∧
    headersGet (createNotCachedResponse r).headers name = headersGet r.headers name :=
  ⟨rfl, rfl, cnc_get_cacheControl r, cnc_get_pragma r, cnc_get_expires r,
    cnc_get_other r name h⟩

/-- A sample upstream response carrying a pre-existing cache-control
header and a custom header. -/
def respWithHeaders : Response :=
  { status := 201, body := "payload"
    headers := [("Cache-Control", "max-age=100"), ("X-Custom", "v")] }

/-- Concrete instance of claim C9: the pre-existing cache-control value
is overridden, the custom header and body and status survive. -/
theorem c9_witness :
    (createNotCachedResponse respWithHeaders).body = respWithHeaders.body ∧
    (createNotCachedResponse respWithHeaders).status = respWithHeaders.status ∧
    headersGet (createNotCachedResponse respWithHeaders).headers "Cache-Control" =
      some "no-store, no-cache, must-revalidate, proxy-revalidate" ∧
    headersGet (createNotCachedResponse respWithHeaders).headers "Pragma" =
      some "no-cache" ∧
    headersGet (createNotCachedResponse respWithHeaders).headers "Expires" = some "0" ∧
    headersGet (createNotCachedResponse respWithHeaders).headers "X-Custom" =
      headersGet respWithHeaders.headers "X-Custom" :=
  c9_finalization_preserves_and_overrides respWithHeaders "X-Custom" (by decide)

/-- Claim C8 (amended): when the backend base URL is empty or absent,
the response is the fixed 500 diagnostic and no outbound call is made;
when the base URL is configured and the endpoint id is empty, the
response is the fixed 400 diagnostic, regardless of mode, and no
outbound call is made.  (The base-URL check runs first, so an empty id
with a missing base URL yields the 500, not the 400.) -/
theorem c8_boundary_responses (net : Net) (env : String) (req : Request) :
    (env = "" → workerFetch net env req = (.ok resp500, [])) ∧
    (env ≠ "" → (parseRequestUrl req).workflowId = "" →
      workerFetch net env req = (.ok resp400, [])) ∧
    resp500.status = 500 ∧
    resp500.body = "Error: N8N_BASE_URL environment variable is not set" ∧
    resp400.status = 400 ∧
    resp400.body = "Error: No workflow ID provided in the URL" := by
  refine ⟨?_, ?_, rfl, rfl, rfl, rfl⟩
  · intro henv
    simp [workerFetch, validateEnvironment, henv]
  · intro henv hid
    simp [workerFetch, validateEnvironment, henv, hid]

/-- A request whose pathname has a single segment: the segment is read
as the mode token and the endpoint id is empty. -/
def reqNoId : Request :=
  { method := "GET", pathname := "/tp", search := "", body := "", headers := [] }

/-- Counterexample to claim C8 as stated: a request with an empty
endpoint id need not get the 400 — when the base URL is also empty the
environment check wins and the response is the fixed 500. -/
theorem c8_counterexample :
    (parseRequestUrl reqNoId).workflowId = "" ∧
    workerFetch netAllOk "" reqNoId = (.ok resp500, []) ∧
    resp500.status = 500 ∧
    ¬ (workerFetch netAllOk "" reqNoId).1 = .ok resp400 := by
  refine ⟨rfl, rfl, rfl, by decide⟩

/-- Concrete instance of the amended claim C8: missing base URL yields
the 500 with no call; configured base URL with empty id yields the 400
with no call. -/
theorem c8_witness :
    workerFetch netAllOk "" reqNoId = (.ok resp500, []) ∧
    workerFetch netAllOk "https://n8n.example.com" reqNoId = (.ok resp400, []) :=
  ⟨(c8_boundary_responses netAllOk "" reqNoId).1 rfl,
    (c8_boundary_responses netAllOk "https://n8n.example.com" reqNoId).2.1
      (by decide) rfl⟩

/-- Claim C10: the 400 and 500 responses produced directly at the
boundary are returned without passing through finalization — they
carry none of the three cache-defeating header overrides — while a
successfully proxied upstream response is returned through
finalization and does carry the cache-control override. -/
theorem c10_boundary_not_cache_overridden (net : Net) (env : String) (req : Request) :
    (env = "" →
      (workerFetch net env req).1 = .ok resp500 ∧
      headersGet resp500.headers "Cache-Control" = none ∧
      headersGet resp500.headers "Pragma" = none ∧
      headersGet resp500.headers "Expires" = none) ∧
    (env ≠ "" → (parseRequestUrl req).workflowId = "" →
      (workerFetch net env req).1 = .ok resp400 ∧
      headersGet resp400.headers "Cache-Control" = none ∧
      headersGet resp400.headers "Pragma" = none ∧
      headersGet resp400.headers "Expires" = none) ∧
    (∀ r calls, env ≠ "" → (parseRequestUrl req).workflowId ≠ "" →
      executeWebhookStrategy net (parseRequestUrl req).workflowId req
        (prepareHeaders req.headers env) (parseRequestUrl req).option = (.ok r, calls) →
      (workerFetch net env req).1 = .ok (createNotCachedResponse r) ∧
      headersGet (createNotCachedResponse r).headers "Cache-Control" =
        some "no-store, no-cache, must-revalidate, proxy-revalidate") := by
  refine ⟨?_, ?_, ?_⟩
  · intro henv
    have : workerFetch net env req = (.ok resp500, []) := by
      simp [workerFetch, validateEnvironment, henv]
    rw [this]
    exact ⟨rfl, rfl, rfl, rfl⟩
  · intro henv hid
    have : workerFetch net env req = (.ok resp400, []) := by
      simp [workerFetch, validateEnvironment, henv, hid]
    rw [this]
    exact ⟨rfl, rfl, rfl, rfl⟩
  · intro r calls henv hid hexec
    rw [workerFetch_dispatch net env req henv hid, hexec]
    exact ⟨rfl, cnc_get_cacheControl r⟩

/-- Concrete instance of claim C10: the boundary 500 and 400 carry no
cache-defeating overrides; a proxied 200 comes back finalized with the
cache-control override. -/
theorem c10_witness :
    ((workerFetch netAllOk "" reqNoId).1 = .ok resp500 ∧
      headersGet resp500.headers "Cache-Control" = none) ∧
    ((workerFetch netAllOk "https://n8n.example.com" reqNoId).1 = .ok resp400 ∧
      headersGet resp400.headers "Pragma" = none) ∧
    ((workerFetch netAllOk "https://n8n.example.com" reqTP).1 =
        .ok (createNotCachedResponse { status := 200, body := "ok", headers := [] }) ∧
      headersGet (createNotCachedResponse
          { status := 200, body := "ok", headers := [] }).headers "Cache-Control" =
        some "no-store, no-cache, must-revalidate, proxy-revalidate") :=
  ⟨⟨((c10_boundary_not_cache_overridden netAllOk "" reqNoId).1 rfl).1,
      ((c10_boundary_not_cache_overridden netAllOk "" reqNoId).1 rfl).2.1⟩,
    ⟨((c10_boundary_not_cache_overridden netAllOk "https://n8n.example.com" reqNoId).2.1
        (by decide) rfl).1,
      ((c10_boundary_not_cache_overridden netAllOk "https://n8n.example.com" reqNoId).2.1
        (by decide) rfl).2.2.1⟩,
    (c10_boundary_not_cache_overridden netAllOk "https://n8n.example.com" reqTP).2.2
      { status := 200, body := "ok", headers := [] }
      [mkCall (hookPath true "123") reqTP
        (prepareHeaders reqTP.headers "https://n8n.example.com")]
      (by decide) (by decide) rfl⟩

end N8nProxy
